import Mathlib

/-!
Verification of the AutoAugment policy engine in
`tensorfn/vision/autoaugment.py` (shallow embedding).

Numbers are modelled exactly: Python floats/ints used by the policy code
become `ℚ`/`ℤ`; the Python built-in `int()` is truncation toward zero.
Randomness (the uniform sub-policy draw, per-step mirror draw and
probability gate) is passed in explicitly.  Fallible Python code
(exceptions) is embedded in `Except String`.
-/

/-- Model of the Python built-in `int()` applied to an exact rational:
truncation toward zero. -/
def pyInt (q : ℚ) : ℤ := if 0 ≤ q then ⌊q⌋ else ⌈q⌉

/-- Embeds `rescale_float(level, max_val, param_max=10)`:
`float(level) * max_val / param_max`. -/
def rescale_float (level max_val param_max : ℚ) : ℚ :=
  level * max_val / param_max

/-- Embeds `rescale_int(level, max_val, param_max=10)`:
`int(level * max_val / param_max)`. -/
def rescale_int (level max_val param_max : ℚ) : ℤ :=
  pyInt (level * max_val / param_max)

/-- PIL resampling policies (`Image.NEAREST` and friends); every affine
constructor in the file uses the default `nearest`. -/
inductive Interp where
  | nearest
  | bilinear
  | bicubic
deriving DecidableEq, Repr

/-- A configured transform capability: one constructor per concrete class of
`autoaugment.py` (plus `Invert`, `AutoContrast`, `Equalize` imported from
`tensorfn.vision.transforms`), holding exactly the configuration fields the
corresponding Python `__init__` stores. -/
inductive Transform where
  | shearX (shear_x : ℚ) (mirror : Bool) (resample : Interp) (p : ℚ)
  | shearY (shear_y : ℚ) (mirror : Bool) (resample : Interp) (p : ℚ)
  | translateX (translate_x : ℚ) (mirror : Bool) (resample : Interp) (p : ℚ)
  | translateY (translate_y : ℚ) (mirror : Bool) (resample : Interp) (p : ℚ)
  | rotate (rotate : ℚ) (mirror : Bool) (resample : Interp) (p : ℚ)
  | posterize (bits : ℚ) (p : ℚ)
  | solarize (threshold : ℚ) (p : ℚ)
  | saturation (saturation : ℚ) (p : ℚ)
  | contrast (contrast : ℚ) (p : ℚ)
  | brightness (brightness : ℚ) (p : ℚ)
  | sharpness (sharpness : ℚ) (p : ℚ)
  | invert (p : ℚ)
  | autoContrast (p : ℚ)
  | equalize (p : ℚ)
deriving DecidableEq, Repr

/-- Modelled from the spec: the base class `RandomTransform.__init__` lives
in `tensorfn/vision/transforms.py`, which is not among these sources; per
the specification (section 7) a fire probability outside `[0, 1]` is an
invalid-parameter error, fatal at the point of construction. -/
def RandomTransform.init (p : ℚ) : Except String Unit :=
  if p < 0 ∨ 1 < p then Except.error "invalid probability" else Except.ok ()

/-- Embeds `ShearX.__init__(shear_x, mirror=True, resample=NEAREST, p=1.0)`;
probability validation comes from the spec-modelled base class. -/
def ShearX.init (shear_x : ℚ) (mirror : Bool) (resample : Interp) (p : ℚ) :
    Except String Transform :=
  (RandomTransform.init p).map (fun _ => Transform.shearX shear_x mirror resample p)

/-- Embeds `ShearY.__init__`. -/
def ShearY.init (shear_y : ℚ) (mirror : Bool) (resample : Interp) (p : ℚ) :
    Except String Transform :=
  (RandomTransform.init p).map (fun _ => Transform.shearY shear_y mirror resample p)

/-- Embeds `TranslateX.__init__`. -/
def TranslateX.init (translate_x : ℚ) (mirror : Bool) (resample : Interp) (p : ℚ) :
    Except String Transform :=
  (RandomTransform.init p).map (fun _ => Transform.translateX translate_x mirror resample p)

/-- Embeds `TranslateY.__init__`. -/
def TranslateY.init (translate_y : ℚ) (mirror : Bool) (resample : Interp) (p : ℚ) :
    Except String Transform :=
  (RandomTransform.init p).map (fun _ => Transform.translateY translate_y mirror resample p)

/-- Embeds `Rotate.__init__`. -/
def Rotate.init (rot : ℚ) (mirror : Bool) (resample : Interp) (p : ℚ) :
    Except String Transform :=
  (RandomTransform.init p).map (fun _ => Transform.rotate rot mirror resample p)

/-- Embeds `Posterize.__init__(bits, p=1.0)`: the bit count is stored
without any range validation. -/
def Posterize.init (bits : ℚ) (p : ℚ) : Except String Transform :=
  (RandomTransform.init p).map (fun _ => Transform.posterize bits p)

/-- Embeds `Solarize.__init__(threshold, p=1.0)`. -/
def Solarize.init (threshold : ℚ) (p : ℚ) : Except String Transform :=
  (RandomTransform.init p).map (fun _ => Transform.solarize threshold p)

/-- Embeds `Saturation.__init__(saturation, p=1.0)`. -/
def Saturation.init (saturation : ℚ) (p : ℚ) : Except String Transform :=
  (RandomTransform.init p).map (fun _ => Transform.saturation saturation p)

/-- Embeds `Contrast.__init__(contrast, p=1.0)`. -/
def Contrast.init (contrast : ℚ) (p : ℚ) : Except String Transform :=
  (RandomTransform.init p).map (fun _ => Transform.contrast contrast p)

/-- Embeds `Brightness.__init__(brightness, p=1.0)`. -/
def Brightness.init (brightness : ℚ) (p : ℚ) : Except String Transform :=
  (RandomTransform.init p).map (fun _ => Transform.brightness brightness p)

/-- Embeds `Sharpness.__init__(sharpness, p=1.0)`. -/
def Sharpness.init (sharpness : ℚ) (p : ℚ) : Except String Transform :=
  (RandomTransform.init p).map (fun _ => Transform.sharpness sharpness p)

/-- Embeds `transforms.Invert(p)` (class body outside these sources; the
spec records it as a probability-only capability). -/
def Invert.init (p : ℚ) : Except String Transform :=
  (RandomTransform.init p).map (fun _ => Transform.invert p)

/-- Embeds `transforms.AutoContrast(p)`. -/
def AutoContrast.init (p : ℚ) : Except String Transform :=
  (RandomTransform.init p).map (fun _ => Transform.autoContrast p)

/-- Embeds `transforms.Equalize(p)`. -/
def Equalize.init (p : ℚ) : Except String Transform :=
  (RandomTransform.init p).map (fun _ => Transform.equalize p)

/-- One value of the `autoaugment_map` dict: a transform constructor paired
with its rescale rule.  Entries whose rule is `None` in the Python dict are
constructed from the probability alone (`augment_fn(p=prob)`); the others
receive the rescaled magnitude and the probability
(`augment_fn(magnitude, p=prob)`). -/
inductive MapEntry where
  | scaled (ctor : ℚ → ℚ → Except String Transform) (rule : ℚ → ℚ)
  | unscaled (ctor : ℚ → Except String Transform)

/-- Embeds the `autoaugment_map` dict of `autoaugment_policy` (lines
202-217): operation name to `(constructor, rescale rule or None)`.  The
integer-valued rules return `rescale_int` cast back into the common
numeric carrier. -/
def autoaugment_map : String → Option MapEntry
  | "ShearX" => some (MapEntry.scaled (fun m p => ShearX.init m true Interp.nearest p)
      (fun level => rescale_float level 0.3 10))
  | "ShearY" => some (MapEntry.scaled (fun m p => ShearY.init m true Interp.nearest p)
      (fun level => rescale_float level 0.3 10))
  | "TranslateX" => some (MapEntry.scaled (fun m p => TranslateX.init m true Interp.nearest p)
      (fun level => ((rescale_int level 10 10 : ℤ) : ℚ)))
  | "TranslateY" => some (MapEntry.scaled (fun m p => TranslateY.init m true Interp.nearest p)
      (fun level => ((rescale_int level 10 10 : ℤ) : ℚ)))
  | "Rotate" => some (MapEntry.scaled (fun m p => Rotate.init m true Interp.nearest p)
      (fun level => ((rescale_int level 30 10 : ℤ) : ℚ)))
  | "Solarize" => some (MapEntry.scaled (fun m p => Solarize.init m p)
      (fun level => ((256 - rescale_int level 256 10 : ℤ) : ℚ)))
  | "Posterize" => some (MapEntry.scaled (fun m p => Posterize.init m p)
      (fun level => ((4 - rescale_int level 4 10 : ℤ) : ℚ)))
  | "Contrast" => some (MapEntry.scaled (fun m p => Contrast.init m p)
      (fun level => rescale_float level 1.8 10 + 0.1))
  | "Color" => some (MapEntry.scaled (fun m p => Saturation.init m p)
      (fun level => rescale_float level 1.8 10 + 0.1))
  | "Brightness" => some (MapEntry.scaled (fun m p => Brightness.init m p)
      (fun level => rescale_float level 1.8 10 + 0.1))
  | "Sharpness" => some (MapEntry.scaled (fun m p => Sharpness.init m p)
      (fun level => rescale_float level 1.8 10 + 0.1))
  | "Invert" => some (MapEntry.unscaled (fun p => Invert.init p))
  | "AutoContrast" => some (MapEntry.unscaled (fun p => AutoContrast.init p))
  | "Equalize" => some (MapEntry.unscaled (fun p => Equalize.init p))
  | _ => none

/-- Whether the registry pairs the named operation with a rescale rule. -/
def has_rescale_rule (name : String) : Bool :=
  match autoaugment_map name with
  | some (MapEntry.scaled _ _) => true
  | _ => false

/-- Embeds the literal `policy_list` table of `autoaugment_policy` (lines
219-245): 25 sub-policies of `(operation name, probability, level)`
triples. -/
def policy_list : List (List (String × ℚ × ℚ)) :=
  [ [("Posterize", 0.4, 8), ("Rotate", 0.6, 9)],
    [("Solarize", 0.6, 5), ("AutoContrast", 0.6, 5)],
    [("Equalize", 0.8, 8), ("Equalize", 0.6, 3)],
    [("Posterize", 0.6, 7), ("Posterize", 0.6, 6)],
    [("Equalize", 0.4, 7), ("Solarize", 0.2, 4)],
    [("Equalize", 0.4, 4), ("Rotate", 0.8, 8)],
    [("Solarize", 0.6, 3), ("Equalize", 0.6, 7)],
    [("Posterize", 0.8, 5), ("Equalize", 1.0, 2)],
    [("Rotate", 0.2, 3), ("Solarize", 0.6, 8)],
    [("Equalize", 0.6, 8), ("Posterize", 0.4, 6)],
    [("Rotate", 0.8, 8), ("Color", 0.4, 0)],
    [("Rotate", 0.4, 9), ("Equalize", 0.6, 2)],
    [("Equalize", 0.0, 7), ("Equalize", 0.8, 8)],
    [("Invert", 0.6, 4), ("Equalize", 1.0, 8)],
    [("Color", 0.6, 4), ("Contrast", 1.0, 8)],
    [("Rotate", 0.8, 8), ("Color", 1.0, 0)],
    [("Color", 0.8, 8), ("Solarize", 0.8, 7)],
    [("Sharpness", 0.4, 7), ("Invert", 0.6, 8)],
    [("ShearX", 0.6, 5), ("Equalize", 1.0, 9)],
    [("Color", 0.4, 0), ("Equalize", 0.6, 3)],
    [("Equalize", 0.4, 7), ("Solarize", 0.2, 4)],
    [("Solarize", 0.6, 5), ("AutoContrast", 0.6, 5)],
    [("Invert", 0.6, 4), ("Equalize", 1.0, 8)],
    [("Color", 0.6, 4), ("Contrast", 1.0, 8)],
    [("Equalize", 0.8, 8), ("Equalize", 0.6, 3)] ]

/-- Embeds the body of the inner loop of `autoaugment_policy` (lines
252-261): one `(name, prob, level)` triple becomes one configured
transform; a name missing from `autoaugment_map` is a `KeyError`. -/
def build_transform (t : String × ℚ × ℚ) : Except String Transform :=
  match autoaugment_map t.1 with
  | none => Except.error ("KeyError: " ++ t.1)
  | some (MapEntry.scaled ctor rule) => ctor (rule t.2.2) t.2.1
  | some (MapEntry.unscaled ctor) => ctor t.2.1

/-- Embeds the inner loop of `autoaugment_policy`: triples become
transforms in order, stopping at the first exception. -/
def build_sub_policy : List (String × ℚ × ℚ) → Except String (List Transform)
  | [] => Except.ok []
  | t :: rest =>
    match build_transform t with
    | Except.error e => Except.error e
    | Except.ok tr =>
      match build_sub_policy rest with
      | Except.error e => Except.error e
      | Except.ok trs => Except.ok (tr :: trs)

/-- Embeds the outer loop of `autoaugment_policy` over an arbitrary literal
table. -/
def autoaugment_policy_of : List (List (String × ℚ × ℚ)) → Except String (List (List Transform))
  | [] => Except.ok []
  | sp :: rest =>
    match build_sub_policy sp with
    | Except.error e => Except.error e
    | Except.ok tsp =>
      match autoaugment_policy_of rest with
      | Except.error e => Except.error e
      | Except.ok tbl => Except.ok (tsp :: tbl)

/-- Embeds `autoaugment_policy()` applied to the fixed literal table. -/
def autoaugment_policy : Except String (List (List Transform)) :=
  autoaugment_policy_of policy_list

/-- Embeds `AutoAugmentAffine._mirror`: when mirroring is enabled the sign
is flipped when the 0.5-probability draw (passed in as `flip`) succeeds. -/
def mirror_val (mirror flip : Bool) (val : ℚ) : ℚ :=
  if mirror && flip then -val else val

/-- A sampled parameter record — the dict a `sample()` method returns, one
constructor per key. -/
inductive Sample where
  | shear_x (v : ℚ)
  | shear_y (v : ℚ)
  | translate_x (v : ℚ)
  | translate_y (v : ℚ)
  | rotate (v : ℚ)
  | bits (v : ℚ)
  | threshold (v : ℚ)
  | saturation (v : ℚ)
  | contrast (v : ℚ)
  | brightness (v : ℚ)
  | sharpness (v : ℚ)
  | empty
deriving DecidableEq, Repr

/-- Embeds the `sample()` method of each class; `flip` is the 0.5-probability
mirror draw.  `TranslateY.sample` (line 99-102) computes `trans_y` but
returns the dict `\x7b"translate_y": trans_x\x7d`, and `trans_x` is an
undefined name there, so the call raises `NameError`.  `Invert`,
`AutoContrast` and `Equalize` inherit the base `sample` (modelled from the
spec: no parameters beyond the gate, hence an empty record). -/
def Transform.sample : Transform → Bool → Except String Sample
  | Transform.shearX v m _ _, flip => Except.ok (Sample.shear_x (mirror_val m flip v))
  | Transform.shearY v m _ _, flip => Except.ok (Sample.shear_y (mirror_val m flip v))
  | Transform.translateX v m _ _, flip => Except.ok (Sample.translate_x (mirror_val m flip v))
  | Transform.translateY _ _ _ _, _ =>
      Except.error "NameError: name trans_x is not defined"
  | Transform.rotate v m _ _, flip => Except.ok (Sample.rotate (mirror_val m flip v))
  | Transform.posterize b _, _ => Except.ok (Sample.bits b)
  | Transform.solarize t _, _ => Except.ok (Sample.threshold t)
  | Transform.saturation s _, _ => Except.ok (Sample.saturation s)
  | Transform.contrast c _, _ => Except.ok (Sample.contrast c)
  | Transform.brightness b _, _ => Except.ok (Sample.brightness b)
  | Transform.sharpness s _, _ => Except.ok (Sample.sharpness s)
  | Transform.invert _, _ => Except.ok Sample.empty
  | Transform.autoContrast _, _ => Except.ok Sample.empty
  | Transform.equalize _, _ => Except.ok Sample.empty

/-- Recognizes the one transform class whose `sample()` raises. -/
def Transform.is_translate_y : Transform → Bool
  | Transform.translateY _ _ _ _ => true
  | _ => false

/-- Images are opaque collaborators of the policy engine; applying a
transform is an uninterpreted operation, recorded symbolically so distinct
applications stay distinct. -/
inductive Img where
  | base (n : ℕ)
  | applied (t : Transform) (s : Sample) (img : Img)
deriving DecidableEq, Repr

/-- Modelled from the spec: `RandomTransform.apply_img` (in
`tensorfn/vision/transforms.py`, outside these sources) draws the fire
gate with probability `p` — passed in here as `gate` — and, when it fires,
replaces the image by `_apply_img(img, **params)`; when it fails the image
passes through unchanged. -/
def apply_img (t : Transform) (gate : Bool) (img : Img) (s : Sample) : Img :=
  if gate then Img.applied t s img else img

/-- The per-step outcome reported by the diagnostic path. -/
inductive Diag where
  | fired
  | skipped
deriving DecidableEq, Repr

/-- Modelled from the spec: `RandomTransform.apply_img_check` applies the
image through the same single gate draw as `apply_img` and additionally
reports whether the step fired; the gate is not re-drawn for the
diagnostic. -/
def apply_img_check (t : Transform) (gate : Bool) (img : Img) (s : Sample) : Img × Diag :=
  (apply_img t gate img s, if gate then Diag.fired else Diag.skipped)

/-- The random draws one executor step consumes: the mirror draw used by
`sample()` and the fire-gate draw used by `apply_img`. -/
structure StepRand where
  flip : Bool
  gate : Bool
deriving DecidableEq, Repr

/-- Embeds `random.choice(seq)`: uniform selection driven by the explicit
draw `idx`; Python raises `IndexError` on an empty sequence. -/
def random_choice {α : Type} (l : List α) (idx : ℕ) : Except String α :=
  if h : l.length = 0 then Except.error "IndexError: cannot choose from an empty sequence"
  else Except.ok (l.get ⟨idx % l.length, Nat.mod_lt idx (Nat.pos_of_ne_zero h)⟩)

/-- Embeds the loop body of `AutoAugment.__call__` (lines 275-277): sample
the parameters, then apply through the gate; an exception from `sample`
propagates. -/
def run_step (t : Transform) (r : StepRand) (img : Img) : Except String Img :=
  match Transform.sample t r.flip with
  | Except.error e => Except.error e
  | Except.ok s => Except.ok (apply_img t r.gate img s)

/-- Embeds the `for pol in selected_policy` loop of `AutoAugment.__call__`;
`rands i` supplies the draws of step `i`. -/
def run_steps (rands : ℕ → StepRand) : List Transform → ℕ → Img → Except String Img
  | [], _, img => Except.ok img
  | t :: ts, i, img =>
    match run_step t (rands i) img with
    | Except.error e => Except.error e
    | Except.ok img2 => run_steps rands ts (i + 1) img2

/-- Embeds `AutoAugment.__call__(img)` (lines 272-279), the plain apply
entry point, with the sub-policy draw and the per-step draws explicit. -/
def AutoAugment.call (policy : List (List Transform)) (idx : ℕ)
    (rands : ℕ → StepRand) (img : Img) : Except String Img :=
  match random_choice policy idx with
  | Except.error e => Except.error e
  | Except.ok sp => run_steps rands sp 0 img

/-- Embeds the loop body of `AutoAugment.check` (lines 291-294): sample,
apply through the diagnostic path, record `(pol, sample, check)`. -/
def check_step (t : Transform) (r : StepRand) (img : Img) :
    Except String (Img × Sample × Diag) :=
  match Transform.sample t r.flip with
  | Except.error e => Except.error e
  | Except.ok s => Except.ok ((apply_img_check t r.gate img s).1, s, (apply_img_check t r.gate img s).2)

/-- Embeds the `for pol in selected_policy` loop of `AutoAugment.check`,
building the ordered trace; an exception abandons image and trace alike. -/
def check_steps (rands : ℕ → StepRand) :
    List Transform → ℕ → Img → Except String (Img × List (Transform × Sample × Diag))
  | [], _, img => Except.ok (img, [])
  | t :: ts, i, img =>
    match check_step t (rands i) img with
    | Except.error e => Except.error e
    | Except.ok (img2, s, c) =>
      match check_steps rands ts (i + 1) img2 with
      | Except.error e => Except.error e
      | Except.ok (imgF, log) => Except.ok (imgF, (t, s, c) :: log)

/-- Embeds `AutoAugment.check(img)` (lines 286-295), the diagnostic entry
point: same selection and stepping as `__call__`, returning the final
image together with the ordered trace. -/
def AutoAugment.check (policy : List (List Transform)) (idx : ℕ)
    (rands : ℕ → StepRand) (img : Img) :
    Except String (Img × List (Transform × Sample × Diag)) :=
  match random_choice policy idx with
  | Except.error e => Except.error e
  | Except.ok sp => check_steps rands sp 0 img

/-- The mutable state an `AutoAugment` object carries: its `self.policy`
attribute. -/
structure ExecState where
  policy : List (List Transform)
deriving DecidableEq, Repr

/-- State-passing form of `AutoAugment.__call__`: the method body reads
`self.policy` and never assigns to `self` or to the attributes of any step, so
the state threads through unchanged. -/
def AutoAugment.call_st (st : ExecState) (idx : ℕ) (rands : ℕ → StepRand)
    (img : Img) : Except String Img × ExecState :=
  (AutoAugment.call st.policy idx rands img, st)

/-- State-passing form of `AutoAugment.check`, likewise read-only in the
object state. -/
def AutoAugment.check_st (st : ExecState) (idx : ℕ) (rands : ℕ → StepRand)
    (img : Img) : Except String (Img × List (Transform × Sample × Diag)) × ExecState :=
  (AutoAugment.check st.policy idx rands img, st)

/-- Transcribed from the spec (section 4.2), the spec side of the executor
refinement: the parameter record each operation is specified to return is
deterministic given the configuration except for the mirror sign draw — in
particular translate-Y is bound to its own sampled magnitude, never to a
translate-X value, and sampling never fails. -/
def spec_sample : Transform → Bool → Sample
  | Transform.shearX v m _ _, flip => Sample.shear_x (mirror_val m flip v)
  | Transform.shearY v m _ _, flip => Sample.shear_y (mirror_val m flip v)
  | Transform.translateX v m _ _, flip => Sample.translate_x (mirror_val m flip v)
  | Transform.translateY v m _ _, flip => Sample.translate_y (mirror_val m flip v)
  | Transform.rotate v m _ _, flip => Sample.rotate (mirror_val m flip v)
  | Transform.posterize b _, _ => Sample.bits b
  | Transform.solarize t _, _ => Sample.threshold t
  | Transform.saturation s _, _ => Sample.saturation s
  | Transform.contrast c _, _ => Sample.contrast c
  | Transform.brightness b _, _ => Sample.brightness b
  | Transform.sharpness s _, _ => Sample.sharpness s
  | Transform.invert _, _ => Sample.empty
  | Transform.autoContrast _, _ => Sample.empty
  | Transform.equalize _, _ => Sample.empty

/-- Transcribed from the spec (section 4.5, the Step and Return stages):
fold the steps of the selected sub-policy in list order over the image; a step
whose gate fails passes the image through unchanged, a firing step replaces
it with the applied result; the image after the last step is returned. -/
def spec_exec_steps (rands : ℕ → StepRand) : List Transform → ℕ → Img → Img
  | [], _, img => img
  | t :: ts, i, img =>
    spec_exec_steps rands ts (i + 1)
      (if (rands i).gate then Img.applied t (spec_sample t (rands i).flip) img else img)

/-- Transcribed from the spec (section 4.5, diagnostic variant): the ordered
trace the diagnostic path is specified to produce — one
`(transform instance, sampled parameters, outcome)` entry per step of the
selected sub-policy, with the fire/skip outcome taken from the same single
gate draw the step used. -/
def spec_trace (rands : ℕ → StepRand) : List Transform → ℕ → List (Transform × Sample × Diag)
  | [], _ => []
  | t :: ts, i =>
    (t, spec_sample t (rands i).flip,
      if (rands i).gate then Diag.fired else Diag.skipped) :: spec_trace rands ts (i + 1)

/-- The canonical policy table written out entry by entry: 25 sub-policies
of 2 steps, magnitudes resolved by hand from the registry rules (for
example `Posterize` at level 8 stores `4 - int(8*4/10) = 1` bit, `Rotate`
at level 9 stores `int(9*30/10) = 27` degrees, the enhancement classes at
level 4 store `4*0.18 + 0.1 = 0.82`). -/
def expected_policy : List (List Transform) :=
  [ [Transform.posterize 1 0.4, Transform.rotate 27 true Interp.nearest 0.6],
    [Transform.solarize 128 0.6, Transform.autoContrast 0.6],
    [Transform.equalize 0.8, Transform.equalize 0.6],
    [Transform.posterize 2 0.6, Transform.posterize 2 0.6],
    [Transform.equalize 0.4, Transform.solarize 154 0.2],
    [Transform.equalize 0.4, Transform.rotate 24 true Interp.nearest 0.8],
    [Transform.solarize 180 0.6, Transform.equalize 0.6],
    [Transform.posterize 2 0.8, Transform.equalize 1],
    [Transform.rotate 9 true Interp.nearest 0.2, Transform.solarize 52 0.6],
    [Transform.equalize 0.6, Transform.posterize 2 0.4],
    [Transform.rotate 24 true Interp.nearest 0.8, Transform.saturation 0.1 0.4],
    [Transform.rotate 27 true Interp.nearest 0.4, Transform.equalize 0.6],
    [Transform.equalize 0, Transform.equalize 0.8],
    [Transform.invert 0.6, Transform.equalize 1],
    [Transform.saturation 0.82 0.6, Transform.contrast 1.54 1],
    [Transform.rotate 24 true Interp.nearest 0.8, Transform.saturation 0.1 1],
    [Transform.saturation 1.54 0.8, Transform.solarize 77 0.8],
    [Transform.sharpness 1.36 0.4, Transform.invert 0.6],
    [Transform.shearX 0.15 true Interp.nearest 0.6, Transform.equalize 1],
    [Transform.saturation 0.1 0.4, Transform.equalize 0.6],
    [Transform.equalize 0.4, Transform.solarize 154 0.2],
    [Transform.solarize 128 0.6, Transform.autoContrast 0.6],
    [Transform.invert 0.6, Transform.equalize 1],
    [Transform.saturation 0.82 0.6, Transform.contrast 1.54 1],
    [Transform.equalize 0.8, Transform.equalize 0.6] ]

theorem pyInt_of_nonneg (q : ℚ) (h : 0 ≤ q) : pyInt q = ⌊q⌋ := by
  simp [pyInt, h]

theorem prob_ok (p : ℚ) (h0 : 0 ≤ p) (h1 : p ≤ 1) :
    RandomTransform.init p = Except.ok () := by
  simp [RandomTransform.init, not_lt.mpr h0, not_lt.mpr h1]

theorem bt_shearX (p L : ℚ) :
    build_transform ("ShearX", p, L) =
      ShearX.init (rescale_float L 0.3 10) true Interp.nearest p := rfl

theorem bt_shearY (p L : ℚ) :
    build_transform ("ShearY", p, L) =
      ShearY.init (rescale_float L 0.3 10) true Interp.nearest p := rfl

theorem bt_translateX (p L : ℚ) :
    build_transform ("TranslateX", p, L) =
      TranslateX.init ((rescale_int L 10 10 : ℤ) : ℚ) true Interp.nearest p := rfl

theorem bt_translateY (p L : ℚ) :
    build_transform ("TranslateY", p, L) =
      TranslateY.init ((rescale_int L 10 10 : ℤ) : ℚ) true Interp.nearest p := rfl

theorem bt_rotate (p L : ℚ) :
    build_transform ("Rotate", p, L) =
      Rotate.init ((rescale_int L 30 10 : ℤ) : ℚ) true Interp.nearest p := rfl

theorem bt_solarize (p L : ℚ) :
    build_transform ("Solarize", p, L) =
      Solarize.init ((256 - rescale_int L 256 10 : ℤ) : ℚ) p := rfl

theorem bt_posterize (p L : ℚ) :
    build_transform ("Posterize", p, L) =
      Posterize.init ((4 - rescale_int L 4 10 : ℤ) : ℚ) p := rfl

theorem bt_contrast (p L : ℚ) :
    build_transform ("Contrast", p, L) =
      Contrast.init (rescale_float L 1.8 10 + 0.1) p := rfl

theorem bt_color (p L : ℚ) :
    build_transform ("Color", p, L) =
      Saturation.init (rescale_float L 1.8 10 + 0.1) p := rfl

theorem bt_brightness (p L : ℚ) :
    build_transform ("Brightness", p, L) =
      Brightness.init (rescale_float L 1.8 10 + 0.1) p := rfl

theorem bt_sharpness (p L : ℚ) :
    build_transform ("Sharpness", p, L) =
      Sharpness.init (rescale_float L 1.8 10 + 0.1) p := rfl

theorem bt_invert (p L : ℚ) :
    build_transform ("Invert", p, L) = Invert.init p := rfl

theorem bt_autoContrast (p L : ℚ) :
    build_transform ("AutoContrast", p, L) = AutoContrast.init p := rfl

theorem bt_equalize (p L : ℚ) :
    build_transform ("Equalize", p, L) = Equalize.init p := rfl

/-- C1: the spec binds the returned parameter of translate-Y to its own sampled
magnitude and records `sample()` as total; the code instead returns the
undefined name `trans_x` (autoaugment.py line 102), so every
`TranslateY.sample()` call raises `NameError` — a copy-paste slip the spec
itself flags as a deviation from intent (section 9). -/
theorem translateY_sample_raises (v : ℚ) (m : Bool) (r : Interp) (p : ℚ) (flip : Bool) :
    Transform.sample (Transform.translateY v m r p) flip =
      Except.error "NameError: name trans_x is not defined" := rfl

/-- C2 counterexample: at level `L = 1` (inside `[0, 10]`) and target
maximum `M = -5`, `rescale_int` truncates `-1/2` toward zero and returns
`0`, while the floor is `-1`; the equation of the claim fails for negative
target maxima. -/
theorem rescale_int_trunc_ne_floor :
    (0 : ℚ) ≤ 1 ∧ (1 : ℚ) ≤ 10 ∧
    rescale_int 1 (-5) 10 = 0 ∧ ⌊((1 : ℚ) * (-5) / 10)⌋ = -1 ∧
    rescale_int 1 (-5) 10 ≠ ⌊((1 : ℚ) * (-5) / 10)⌋ := by
  have h1 : rescale_int 1 (-5) 10 = 0 := by norm_num [rescale_int, pyInt]
  have h2 : ⌊((1 : ℚ) * (-5) / 10)⌋ = -1 := by norm_num
  exact ⟨by norm_num, by norm_num, h1, h2, by rw [h1, h2]; decide⟩

/-- C2 as amended: for levels in `[0, 10]` and nonnegative target maxima,
`rescale_float(L, M)` is exactly `L*M/10` and `rescale_int(L, M)` is
`floor(L*M/10)`; only for negative maxima does the truncation of
`rescale_int` depart from the floor. -/
theorem rescale_correct (L M : ℚ) (h0 : 0 ≤ L) (h10 : L ≤ 10) (hM : 0 ≤ M) :
    rescale_float L M 10 = L * M / 10 ∧ rescale_int L M 10 = ⌊L * M / 10⌋ := by
  refine ⟨rfl, ?_⟩
  unfold rescale_int
  exact pyInt_of_nonneg _ (div_nonneg (mul_nonneg h0 hM) (by norm_num))

/-- Witness for `rescale_correct` at `L = 8`, `M = 4`. -/
theorem rescale_correct_witness :
    ((0 : ℚ) ≤ 8 ∧ (8 : ℚ) ≤ 10 ∧ (0 : ℚ) ≤ 4) ∧
    rescale_float 8 4 10 = 8 * 4 / 10 ∧ rescale_int 8 4 10 = ⌊((8 : ℚ) * 4 / 10)⌋ :=
  ⟨by norm_num, rescale_correct 8 4 (by norm_num) (by norm_num) (by norm_num)⟩

/-- C3: for every level and in-range probability, the registry rules
resolve as specified — `Solarize` threshold `256 - rescale_int(L, 256)`,
`Posterize` bits `4 - rescale_int(L, 4)`, the four enhancement operations
`rescale_float(L, 1.8) + 0.1` (positive for every level in range, `0.1` at
level 0), shears `rescale_float(L, 0.3)`, translations `rescale_int(L, 10)`,
rotation `rescale_int(L, 30)`, and `Invert`, `AutoContrast`, `Equalize`
carry no rescale rule and are built from the probability alone. -/
theorem registry_rules (L p : ℚ) (hL0 : 0 ≤ L) (hL10 : L ≤ 10)
    (hp0 : 0 ≤ p) (hp1 : p ≤ 1) :
    build_transform ("Solarize", p, L) =
      Except.ok (Transform.solarize ((256 - rescale_int L 256 10 : ℤ) : ℚ) p) ∧
    build_transform ("Posterize", p, L) =
      Except.ok (Transform.posterize ((4 - rescale_int L 4 10 : ℤ) : ℚ) p) ∧
    build_transform ("Contrast", p, L) =
      Except.ok (Transform.contrast (rescale_float L 1.8 10 + 0.1) p) ∧
    build_transform ("Color", p, L) =
      Except.ok (Transform.saturation (rescale_float L 1.8 10 + 0.1) p) ∧
    build_transform ("Brightness", p, L) =
      Except.ok (Transform.brightness (rescale_float L 1.8 10 + 0.1) p) ∧
    build_transform ("Sharpness", p, L) =
      Except.ok (Transform.sharpness (rescale_float L 1.8 10 + 0.1) p) ∧
    (0 : ℚ) < rescale_float L 1.8 10 + 0.1 ∧
    rescale_float 0 1.8 10 + 0.1 = 0.1 ∧
    build_transform ("ShearX", p, L) =
      Except.ok (Transform.shearX (rescale_float L 0.3 10) true Interp.nearest p) ∧
    build_transform ("ShearY", p, L) =
      Except.ok (Transform.shearY (rescale_float L 0.3 10) true Interp.nearest p) ∧
    build_transform ("TranslateX", p, L) =
      Except.ok (Transform.translateX ((rescale_int L 10 10 : ℤ) : ℚ) true Interp.nearest p) ∧
    build_transform ("TranslateY", p, L) =
      Except.ok (Transform.translateY ((rescale_int L 10 10 : ℤ) : ℚ) true Interp.nearest p) ∧
    build_transform ("Rotate", p, L) =
      Except.ok (Transform.rotate ((rescale_int L 30 10 : ℤ) : ℚ) true Interp.nearest p) ∧
    has_rescale_rule "Invert" = false ∧
    has_rescale_rule "AutoContrast" = false ∧
    has_rescale_rule "Equalize" = false ∧
    build_transform ("Invert", p, L) = Except.ok (Transform.invert p) ∧
    build_transform ("AutoContrast", p, L) = Except.ok (Transform.autoContrast p) ∧
    build_transform ("Equalize", p, L) = Except.ok (Transform.equalize p) := by
  have hp := prob_ok p hp0 hp1
  have hpos : (0 : ℚ) ≤ rescale_float L 1.8 10 := by
    unfold rescale_float; positivity
  refine ⟨?_, ?_, ?_, ?_, ?_, ?_, by linarith, by norm_num [rescale_float],
    ?_, ?_, ?_, ?_, ?_, rfl, rfl, rfl, ?_, ?_, ?_⟩
  · simp [bt_solarize, Solarize.init, hp, Except.map]
  · simp [bt_posterize, Posterize.init, hp, Except.map]
  · simp [bt_contrast, Contrast.init, hp, Except.map]
  · simp [bt_color, Saturation.init, hp, Except.map]
  · simp [bt_brightness, Brightness.init, hp, Except.map]
  · simp [bt_sharpness, Sharpness.init, hp, Except.map]
  · simp [bt_shearX, ShearX.init, hp, Except.map]
  · simp [bt_shearY, ShearY.init, hp, Except.map]
  · simp [bt_translateX, TranslateX.init, hp, Except.map]
  · simp [bt_translateY, TranslateY.init, hp, Except.map]
  · simp [bt_rotate, Rotate.init, hp, Except.map]
  · simp [bt_invert, Invert.init, hp, Except.map]
  · simp [bt_autoContrast, AutoContrast.init, hp, Except.map]
  · simp [bt_equalize, Equalize.init, hp, Except.map]

/-- Witness for `registry_rules` at level 5 and probability 1/2. -/
theorem registry_rules_witness :
    ((0 : ℚ) ≤ 5 ∧ (5 : ℚ) ≤ 10 ∧ (0 : ℚ) ≤ 1/2 ∧ (1/2 : ℚ) ≤ 1) ∧
    build_transform ("Solarize", 1/2, 5) =
      Except.ok (Transform.solarize ((256 - rescale_int 5 256 10 : ℤ) : ℚ) (1/2)) :=
  ⟨by norm_num,
    (registry_rules 5 (1/2) (by norm_num) (by norm_num) (by norm_num) (by norm_num)).1⟩

/-- C4: the build entry point deterministically reconstructs the canonical
table — exactly 25 sub-policies of exactly 2 configured instances each, in
the order of the literal table, every instance built from the operation of
its triple with the probability of that triple and (with a rescale rule) the
rescaled magnitude, probability-only otherwise; the resolved values are the
ones listed in `expected_policy`. -/
theorem autoaugment_policy_canonical :
    autoaugment_policy = Except.ok expected_policy ∧
    expected_policy.length = 25 ∧
    expected_policy.map List.length = List.replicate 25 2 := by
  refine ⟨?_, rfl, rfl⟩
  norm_num [autoaugment_policy, policy_list, autoaugment_policy_of, build_sub_policy,
    bt_shearX, bt_posterize, bt_rotate, bt_solarize, bt_contrast, bt_color,
    bt_brightness, bt_sharpness, bt_invert, bt_autoContrast, bt_equalize,
    ShearX.init, Posterize.init, Rotate.init, Solarize.init, Contrast.init,
    Saturation.init, Brightness.init, Sharpness.init, Invert.init,
    AutoContrast.init, Equalize.init, RandomTransform.init,
    rescale_int, rescale_float, pyInt, Except.map, expected_policy]

theorem build_sub_policy_error (ts : List (String × ℚ × ℚ))
    (h : ∃ t ∈ ts, ∃ e, build_transform t = Except.error e) :
    ∃ e, build_sub_policy ts = Except.error e := by
  induction ts with
  | nil => simp at h
  | cons t rest ih =>
    rcases h with ⟨t', ht', e, he⟩
    rcases List.mem_cons.mp ht' with h1 | h2
    · subst h1
      exact ⟨e, by simp [build_sub_policy, he]⟩
    · cases hbt : build_transform t with
      | error e0 => exact ⟨e0, by simp [build_sub_policy, hbt]⟩
      | ok tr =>
        obtain ⟨e1, herr⟩ := ih ⟨t', h2, e, he⟩
        exact ⟨e1, by simp [build_sub_policy, hbt, herr]⟩

theorem autoaugment_policy_of_error (pl : List (List (String × ℚ × ℚ)))
    (h : ∃ sp ∈ pl, ∃ e, build_sub_policy sp = Except.error e) :
    ∃ e, autoaugment_policy_of pl = Except.error e := by
  induction pl with
  | nil => simp at h
  | cons sp rest ih =>
    rcases h with ⟨sp', hsp', e, he⟩
    rcases List.mem_cons.mp hsp' with h1 | h2
    · subst h1
      exact ⟨e, by simp [autoaugment_policy_of, he]⟩
    · cases hbs : build_sub_policy sp with
      | error e0 => exact ⟨e0, by simp [autoaugment_policy_of, hbs]⟩
      | ok tsp =>
        obtain ⟨e1, herr⟩ := ih ⟨sp', h2, e, he⟩
        exact ⟨e1, by simp [autoaugment_policy_of, hbs, herr]⟩

/-- C5: if any triple of a literal table names an operation absent from the
registry, building the table fails with the unknown-operation (`KeyError`)
exception and no partial table is returned — the `Except.error` result
carries no sub-policies, and the name is never skipped or substituted. -/
theorem unknown_operation_aborts (pl : List (List (String × ℚ × ℚ)))
    (h : ∃ sp ∈ pl, ∃ t ∈ sp, autoaugment_map t.1 = none) :
    ∃ e, autoaugment_policy_of pl = Except.error e := by
  rcases h with ⟨sp, hsp, t, ht, hnone⟩
  apply autoaugment_policy_of_error
  refine ⟨sp, hsp, build_sub_policy_error sp ⟨t, ht, "KeyError: " ++ t.1, ?_⟩⟩
  simp [build_transform, hnone]

/-- Witness for `unknown_operation_aborts`: a table naming the unregistered
operation `Frobnicate` fails to build. -/
theorem unknown_operation_aborts_witness :
    (∃ sp ∈ [[("Posterize", (2/5 : ℚ), (8 : ℚ)), ("Frobnicate", 3/5, 9)]],
      ∃ t ∈ sp, autoaugment_map t.1 = none) ∧
    ∃ e, autoaugment_policy_of
        [[("Posterize", (2/5 : ℚ), (8 : ℚ)), ("Frobnicate", 3/5, 9)]] =
      Except.error e := by
  have h : ∃ sp ∈ [[("Posterize", (2/5 : ℚ), (8 : ℚ)), ("Frobnicate", 3/5, 9)]],
      ∃ t ∈ sp, autoaugment_map t.1 = none :=
    ⟨[("Posterize", (2/5 : ℚ), (8 : ℚ)), ("Frobnicate", 3/5, 9)], by simp,
      ("Frobnicate", 3/5, 9), by simp, rfl⟩
  exact ⟨h, unknown_operation_aborts _ h⟩

/-- C6 counterexample: level 99 lies far outside the declared level range
`[0, 10]`, yet constructing the `Posterize` step of a sub-policy from it
succeeds — the builder rescales 99 to `4 - int(99*4/10) = -35` bits and the
constructor stores that magnitude without any range validation; no
invalid-parameter error is raised at construction. -/
theorem out_of_range_level_accepted :
    build_sub_policy [("Posterize", 2/5, 99)] =
      Except.ok [Transform.posterize (-35) (2/5)] := by
  norm_num [build_sub_policy, bt_posterize, Posterize.init, RandomTransform.init,
    rescale_int, pyInt, Except.map]

/-- C6 as amended: constructing a transform capability with a probability
outside `[0, 1]` fails with the invalid-parameter error (the spec-modelled
base-class contract), and an in-range probability is accepted whatever the
magnitude — the magnitude/level itself is stored without range
validation. -/
theorem construction_checks_probability_only (b p : ℚ) :
    (p < 0 ∨ 1 < p →
      Posterize.init b p = Except.error "invalid probability" ∧
      ShearX.init b true Interp.nearest p = Except.error "invalid probability") ∧
    (0 ≤ p → p ≤ 1 →
      Posterize.init b p = Except.ok (Transform.posterize b p) ∧
      ShearX.init b true Interp.nearest p =
        Except.ok (Transform.shearX b true Interp.nearest p)) := by
  constructor
  · intro hbad
    have hinit : RandomTransform.init p = Except.error "invalid probability" := by
      unfold RandomTransform.init
      exact if_pos hbad
    exact ⟨by simp [Posterize.init, hinit, Except.map],
      by simp [ShearX.init, hinit, Except.map]⟩
  · intro h0 h1
    have hinit := prob_ok p h0 h1
    exact ⟨by simp [Posterize.init, hinit, Except.map],
      by simp [ShearX.init, hinit, Except.map]⟩

/-- Witness for `construction_checks_probability_only` at probabilities 3/2
(rejected) and 2/5 (accepted, even with magnitude 99). -/
theorem construction_checks_probability_only_witness :
    (1 < (3/2 : ℚ) ∧ Posterize.init 99 (3/2) = Except.error "invalid probability") ∧
    ((0 : ℚ) ≤ 2/5 ∧ (2/5 : ℚ) ≤ 1 ∧
      Posterize.init 99 (2/5) = Except.ok (Transform.posterize 99 (2/5))) :=
  ⟨⟨by norm_num,
      ((construction_checks_probability_only 99 (3/2)).1 (Or.inr (by norm_num))).1⟩,
    ⟨by norm_num, by norm_num,
      ((construction_checks_probability_only 99 (2/5)).2 (by norm_num) (by norm_num)).1⟩⟩

theorem sample_eq_spec (t : Transform) (flip : Bool)
    (h : Transform.is_translate_y t = false) :
    Transform.sample t flip = Except.ok (spec_sample t flip) := by
  cases t <;> simp_all [Transform.sample, spec_sample, Transform.is_translate_y]

theorem run_steps_eq_spec (rands : ℕ → StepRand) (ts : List Transform) :
    ∀ (i : ℕ) (img : Img), (∀ t ∈ ts, Transform.is_translate_y t = false) →
      run_steps rands ts i img = Except.ok (spec_exec_steps rands ts i img) := by
  induction ts with
  | nil => intro i img _; rfl
  | cons t rest ih =>
    intro i img h
    have ht : Transform.is_translate_y t = false := h t (by simp)
    have hrest : ∀ t' ∈ rest, Transform.is_translate_y t' = false :=
      fun t' h' => h t' (by simp [h'])
    simp [run_steps, run_step, sample_eq_spec t _ ht, spec_exec_steps, apply_img,
      ih _ _ hrest]

/-- C7 counterexample: a sub-policy containing a `TranslateY` step makes
the plain apply path raise the `NameError` from `TranslateY.sample` instead
of gating and finishing the step sequence — no image is returned, so the
claim as stated fails for this policy table and input. -/
theorem call_translate_y_raises :
    AutoAugment.call [[Transform.translateY 5 true Interp.nearest 1]] 0
      (fun _ => StepRand.mk false true) (Img.base 0) =
      Except.error "NameError: name trans_x is not defined" := rfl

/-- C7 as amended: whenever the selected sub-policy contains no
`TranslateY` step (true of every sub-policy of the canonical table),
`AutoAugment.__call__` selects the sub-policy given by the uniform draw,
processes each of its steps exactly once in list order — a failed gate
passes the image through, a firing gate replaces it with the applied
result — and returns the image after the last step, exactly the executor
`spec_exec_steps` of the spec. -/
theorem call_refines_spec_exec (policy : List (List Transform)) (idx : ℕ)
    (rands : ℕ → StepRand) (img : Img) (sp : List Transform)
    (hsel : random_choice policy idx = Except.ok sp)
    (hsp : ∀ t ∈ sp, Transform.is_translate_y t = false) :
    AutoAugment.call policy idx rands img =
      Except.ok (spec_exec_steps rands sp 0 img) := by
  simp [AutoAugment.call, hsel, run_steps_eq_spec rands sp 0 img hsp]

/-- Witness for `call_refines_spec_exec` on a two-step sub-policy. -/
theorem call_refines_spec_exec_witness :
    random_choice [[Transform.invert 1, Transform.equalize (1/2)]] 0 =
      Except.ok [Transform.invert 1, Transform.equalize (1/2)] ∧
    (∀ t ∈ [Transform.invert 1, Transform.equalize (1/2)],
      Transform.is_translate_y t = false) ∧
    AutoAugment.call [[Transform.invert 1, Transform.equalize (1/2)]] 0
        (fun _ => StepRand.mk false true) (Img.base 0) =
      Except.ok (spec_exec_steps (fun _ => StepRand.mk false true)
        [Transform.invert 1, Transform.equalize (1/2)] 0 (Img.base 0)) := by
  have hsel : random_choice [[Transform.invert 1, Transform.equalize (1/2)]] 0 =
      Except.ok [Transform.invert 1, Transform.equalize (1/2)] := rfl
  have hty : ∀ t ∈ [Transform.invert 1, Transform.equalize (1/2)],
      Transform.is_translate_y t = false := by
    intro t ht
    rcases List.mem_cons.mp ht with h1 | h2
    · subst h1; rfl
    · obtain rfl := List.mem_singleton.mp h2; rfl
  exact ⟨hsel, hty, call_refines_spec_exec _ _ _ _ _ hsel hty⟩

theorem spec_trace_length (rands : ℕ → StepRand) (ts : List Transform) :
    ∀ i : ℕ, (spec_trace rands ts i).length = ts.length := by
  induction ts with
  | nil => intro i; rfl
  | cons t rest ih => intro i; simp [spec_trace, ih]

theorem check_steps_eq_spec (rands : ℕ → StepRand) (ts : List Transform) :
    ∀ (i : ℕ) (img : Img), (∀ t ∈ ts, Transform.is_translate_y t = false) →
      check_steps rands ts i img =
        Except.ok (spec_exec_steps rands ts i img, spec_trace rands ts i) := by
  induction ts with
  | nil => intro i img _; rfl
  | cons t rest ih =>
    intro i img h
    have ht : Transform.is_translate_y t = false := h t (by simp)
    have hrest : ∀ t' ∈ rest, Transform.is_translate_y t' = false :=
      fun t' h' => h t' (by simp [h'])
    simp [check_steps, check_step, sample_eq_spec t _ ht, ih _ _ hrest,
      apply_img_check, apply_img, spec_exec_steps, spec_trace]

/-- C8 counterexample: a sub-policy containing a `TranslateY` step makes
the diagnostic path raise out of `sample()` — no trace (of any length) and
no final image are returned for this policy table and input. -/
theorem check_translate_y_raises :
    AutoAugment.check [[Transform.translateY 3 true Interp.nearest 1]] 0
      (fun _ => StepRand.mk false true) (Img.base 1) =
      Except.error "NameError: name trans_x is not defined" := rfl

/-- C8 as amended: whenever the selected sub-policy contains no
`TranslateY` step, the diagnostic entry point performs the same selection
and in-order stepping as the plain path — it returns the final image of
the plain path — together with the spec trace: exactly one
`(transform, sampled parameters, outcome)` entry per step, so the trace
length equals the step count of the sub-policy, and the fire/skip outcome
of each step comes from the single gate draw that step consumed. -/
theorem check_returns_full_trace (policy : List (List Transform)) (idx : ℕ)
    (rands : ℕ → StepRand) (img : Img) (sp : List Transform)
    (hsel : random_choice policy idx = Except.ok sp)
    (hsp : ∀ t ∈ sp, Transform.is_translate_y t = false) :
    AutoAugment.check policy idx rands img =
      Except.ok (spec_exec_steps rands sp 0 img, spec_trace rands sp 0) ∧
    (spec_trace rands sp 0).length = sp.length ∧
    AutoAugment.call policy idx rands img =
      Except.ok (spec_exec_steps rands sp 0 img) := by
  refine ⟨?_, spec_trace_length rands sp 0, ?_⟩
  · simp [AutoAugment.check, hsel, check_steps_eq_spec rands sp 0 img hsp]
  · simp [AutoAugment.call, hsel, run_steps_eq_spec rands sp 0 img hsp]

/-- Witness for `check_returns_full_trace` on a two-step sub-policy with a
firing first gate and failing second gate. -/
theorem check_returns_full_trace_witness :
    random_choice [[Transform.posterize 1 (2/5), Transform.equalize 1]] 0 =
      Except.ok [Transform.posterize 1 (2/5), Transform.equalize 1] ∧
    (∀ t ∈ [Transform.posterize 1 (2/5), Transform.equalize 1],
      Transform.is_translate_y t = false) ∧
    AutoAugment.check [[Transform.posterize 1 (2/5), Transform.equalize 1]] 0
        (fun i => StepRand.mk false (i == 0)) (Img.base 3) =
      Except.ok (spec_exec_steps (fun i => StepRand.mk false (i == 0))
          [Transform.posterize 1 (2/5), Transform.equalize 1] 0 (Img.base 3),
        spec_trace (fun i => StepRand.mk false (i == 0))
          [Transform.posterize 1 (2/5), Transform.equalize 1] 0) := by
  have hsel : random_choice [[Transform.posterize 1 (2/5), Transform.equalize 1]] 0 =
      Except.ok [Transform.posterize 1 (2/5), Transform.equalize 1] := rfl
  have hty : ∀ t ∈ [Transform.posterize 1 (2/5), Transform.equalize 1],
      Transform.is_translate_y t = false := by
    intro t ht
    rcases List.mem_cons.mp ht with h1 | h2
    · subst h1; rfl
    · obtain rfl := List.mem_singleton.mp h2; rfl
  exact ⟨hsel, hty,
    (check_returns_full_trace _ _ _ _ _ hsel hty).1⟩

theorem check_steps_log_fst (rands : ℕ → StepRand) (ts : List Transform) :
    ∀ (i : ℕ) (img imgF : Img) (log : List (Transform × Sample × Diag)),
      check_steps rands ts i img = Except.ok (imgF, log) →
      log.map (fun e => e.1) = ts := by
  induction ts with
  | nil =>
    intro i img imgF log h
    simp only [check_steps, Except.ok.injEq, Prod.mk.injEq] at h
    simp [← h.2]
  | cons t rest ih =>
    intro i img imgF log h
    cases hcs : check_step t (rands i) img with
    | error e =>
      simp only [check_steps, hcs] at h
      exact Except.noConfusion h
    | ok res =>
      obtain ⟨img2, s, c⟩ := res
      cases hrec : check_steps rands rest (i + 1) img2 with
      | error e =>
        simp only [check_steps, hcs, hrec] at h
        exact Except.noConfusion h
      | ok res2 =>
        obtain ⟨imgR, logR⟩ := res2
        simp only [check_steps, hcs, hrec, Except.ok.injEq, Prod.mk.injEq] at h
        rw [← h.2]
        simp [ih _ _ _ _ hrec]

/-- C9: neither entry point mutates the policy table or the
stored configuration of any transform — in state-passing form both `__call__` and `check`
return the object state unchanged, and the transform instances recorded in
the diagnostic trace are exactly the unaltered instances of the selected
sub-policy itself; only the transient per-call sample records are produced. -/
theorem apply_paths_preserve_state (policy : List (List Transform)) (idx : ℕ)
    (rands : ℕ → StepRand) (img : Img) :
    (AutoAugment.call_st (ExecState.mk policy) idx rands img).2 = ExecState.mk policy ∧
    (AutoAugment.check_st (ExecState.mk policy) idx rands img).2 = ExecState.mk policy ∧
    ∀ (sp : List Transform) (imgF : Img) (log : List (Transform × Sample × Diag)),
      random_choice policy idx = Except.ok sp →
      AutoAugment.check policy idx rands img = Except.ok (imgF, log) →
      log.map (fun e => e.1) = sp := by
  refine ⟨rfl, rfl, ?_⟩
  intro sp imgF log hsel hchk
  simp only [AutoAugment.check, hsel] at hchk
  exact check_steps_log_fst rands sp 0 img imgF log hchk

/-- Witness for `apply_paths_preserve_state` on a one-step policy. -/
theorem apply_paths_preserve_state_witness :
    (AutoAugment.call_st (ExecState.mk [[Transform.invert (1/2)]]) 0
        (fun _ => StepRand.mk false true) (Img.base 2)).2 =
      ExecState.mk [[Transform.invert (1/2)]] ∧
    List.map (fun e => e.1)
        [(Transform.invert (1/2), Sample.empty, Diag.fired)] =
      [Transform.invert (1/2)] := by
  have h := apply_paths_preserve_state [[Transform.invert (1/2)]] 0
    (fun _ => StepRand.mk false true) (Img.base 2)
  exact ⟨h.1, h.2.2 [Transform.invert (1/2)]
    (Img.applied (Transform.invert (1/2)) Sample.empty (Img.base 2))
    [(Transform.invert (1/2), Sample.empty, Diag.fired)] rfl rfl⟩

/-- C10: with an empty policy table both entry points raise the
`IndexError` of the uniform draw instead of returning the input unchanged,
and for every non-empty policy table the draw yields a sub-policy. -/
theorem empty_policy_raises (idx : ℕ) (rands : ℕ → StepRand) (img : Img) :
    AutoAugment.call [] idx rands img =
      Except.error "IndexError: cannot choose from an empty sequence" ∧
    AutoAugment.check [] idx rands img =
      Except.error "IndexError: cannot choose from an empty sequence" ∧
    ∀ policy : List (List Transform), policy ≠ [] →
      ∃ sp, random_choice policy idx = Except.ok sp := by
  refine ⟨rfl, rfl, ?_⟩
  intro policy hne
  have hlen : policy.length ≠ 0 := by simpa using hne
  refine ⟨policy.get ⟨idx % policy.length, Nat.mod_lt idx (Nat.pos_of_ne_zero hlen)⟩, ?_⟩
  unfold random_choice
  exact dif_neg hlen

/-- Witness for `empty_policy_raises`: the empty table raises; a singleton
table yields its sub-policy. -/
theorem empty_policy_raises_witness :
    AutoAugment.call [] 0 (fun _ => StepRand.mk false true) (Img.base 0) =
      Except.error "IndexError: cannot choose from an empty sequence" ∧
    ([[Transform.equalize 1]] : List (List Transform)) ≠ [] ∧
    ∃ sp, random_choice [[Transform.equalize 1]] 0 = Except.ok sp := by
  have h := empty_policy_raises 0 (fun _ => StepRand.mk false true) (Img.base 0)
  exact ⟨h.1, by simp, h.2.2 [[Transform.equalize 1]] (by simp)⟩
